import Mathlib

/-!
Verification of the AutoAdvisor transcript-analysis service
(src/mainendpoints.py).  The FastAPI endpoint layer (data models,
credential checks, the /api/analyze handler) is embedded from the source;
the delegated `AutoAdvisor.analyze_transcript` engine is not part of the
repository sources, so it is modelled from the specification
(sections 3, 4.1-4.5 of spec.md).  Python floats are embedded as
rationals (ℚ); Python strings as Lean strings with ASCII digit classes.
-/

namespace AutoAdvisor

/-- Data model `Course` from src/mainendpoints.py (lines 43-48): one
academic record with a name, a letter grade, a credit weight, a semester
tag and an optional note.  `credits` is a Python float, embedded as ℚ. -/
structure Course where
  name : String
  grade : String
  credits : ℚ
  semester : String
  notes : Option String := none
deriving DecidableEq

/-- Data model `Transcript` from src/mainendpoints.py (lines 51-59): the
8 fixed semester buckets, in canonical order, each a list of courses. -/
structure Transcript where
  freshman_1 : List Course := []
  freshman_2 : List Course := []
  sophomore_1 : List Course := []
  sophomore_2 : List Course := []
  junior_1 : List Course := []
  junior_2 : List Course := []
  senior_1 : List Course := []
  senior_2 : List Course := []
deriving DecidableEq

/-- Data model `StudentData` from src/mainendpoints.py (lines 62-66). -/
structure StudentData where
  name : String
  student_id : String
  advisor : String
  transcript : Transcript
deriving DecidableEq

/-- The raw JSON shape of a transcript before Pydantic validation: every
semester key may be absent (`none`).  Mirrors that each field of the
Pydantic `Transcript` model carries the default value `[]`. -/
structure TranscriptJson where
  freshman_1 : Option (List Course) := none
  freshman_2 : Option (List Course) := none
  sophomore_1 : Option (List Course) := none
  sophomore_2 : Option (List Course) := none
  junior_1 : Option (List Course) := none
  junior_2 : Option (List Course) := none
  senior_1 : Option (List Course) := none
  senior_2 : Option (List Course) := none
deriving DecidableEq

/-- Pydantic validation of a `Transcript` (src/mainendpoints.py lines
51-59): every field declares the default `[]`, so a missing semester key
is replaced by the empty list and validation never fails.  No constraint
is declared on `Course.credits` (it is a bare `float`), so negative
credits are accepted. -/
def parseTranscript (j : TranscriptJson) : Transcript :=
  { freshman_1 := j.freshman_1.getD []
    freshman_2 := j.freshman_2.getD []
    sophomore_1 := j.sophomore_1.getD []
    sophomore_2 := j.sophomore_2.getD []
    junior_1 := j.junior_1.getD []
    junior_2 := j.junior_2.getD []
    senior_1 := j.senior_1.getD []
    senior_2 := j.senior_2.getD [] }

/-- Modelled from the spec: `gradeValue` of the Aggregator (spec 4.1),
missing from src/ together with the whole `AutoAdvisor` engine.  Maps
A to 4.0, B to 3.0, C to 2.0, D to 1.0, F to 0.0, and any other grade
silently to 0.0. -/
def gradeValue (g : String) : ℚ :=
  if g = "A" then 4
  else if g = "B" then 3
  else if g = "C" then 2
  else if g = "D" then 1
  else if g = "F" then 0
  else 0

/-- The courses of a transcript, walking the 8 fixed semester keys in
their canonical order (spec 3 and 4.1). -/
def allCourses (t : Transcript) : List Course :=
  t.freshman_1 ++ t.freshman_2 ++ t.sophomore_1 ++ t.sophomore_2 ++
    t.junior_1 ++ t.junior_2 ++ t.senior_1 ++ t.senior_2

/-- One step of the accumulation loop of the Aggregator (spec 4.1): add
the course credits to `total_credits` and credits times grade value to
`grade_points`. -/
def courseStep (acc : ℚ × ℚ) (c : Course) : ℚ × ℚ :=
  (acc.1 + c.credits, acc.2 + c.credits * gradeValue c.grade)

/-- Modelled from the spec: the Aggregator (spec 4.1), missing from src/
with the `AutoAdvisor` engine.  Walks the 8 fixed semester keys in
canonical order and folds the accumulation step over every course,
starting from `(0, 0)`.  Returns `(total_credits, grade_points)`. -/
def aggregate (t : Transcript) : ℚ × ℚ :=
  (allCourses t).foldl courseStep (0, 0)

/-- Rounding to two decimal places, used by the GPA Calculator
(spec 4.2) for the presented GPA. -/
def round2 (q : ℚ) : ℚ :=
  (⌊q * 100 + 1 / 2⌋ : ℚ) / 100

/-- Modelled from the spec: the GPA Calculator (spec 4.2), missing from
src/ with the `AutoAdvisor` engine.  `grade_points / total_credits`
rounded to two decimals when `total_credits > 0`, else exactly 0. -/
def computeGpa (total_credits grade_points : ℚ) : ℚ :=
  if 0 < total_credits then round2 (grade_points / total_credits) else 0

/-- Modelled from the spec: the Standing Classifier (spec 4.3), missing
from src/ with the `AutoAdvisor` engine.  Three GPA bands evaluated in
descending order, first match wins; closed at the lower bound. -/
def academic_standing (gpa : ℚ) : String :=
  if 3.5 ≤ gpa then "excellent"
  else if 3 ≤ gpa then "good"
  else "needs improvement"

/-- Advisory message of the top GPA tier (wording is presentational). -/
def excellentMessage : String :=
  "Excellent academic standing. Consider honors or advanced courses."

/-- Advisory message of the middle GPA tier. -/
def goodMessage : String :=
  "Good academic standing. Aim to raise your GPA above 3.5."

/-- Advisory message of the bottom GPA tier. -/
def improvementMessage : String :=
  "GPA needs improvement. Schedule a meeting with your advisor."

/-- Pacing advisory message, appended when total credits fall below the
fixed progress threshold of 30. -/
def pacingMessage : String :=
  "You are below 30 total credits. Consider taking more credits."

/-- Modelled from the spec: the GPA-tier message selection of the
Recommendation Generator (spec 4.4), missing from src/ with the
`AutoAdvisor` engine.  Same bands as the Standing Classifier. -/
def tierMessage (gpa : ℚ) : String :=
  if 3.5 ≤ gpa then excellentMessage
  else if 3 ≤ gpa then goodMessage
  else improvementMessage

/-- Modelled from the spec: the Recommendation Generator (spec 4.4),
missing from src/ with the `AutoAdvisor` engine.  Exactly one GPA-tier
message first, then the pacing message if and only if
`total_credits < 30`. -/
def recommendations (gpa total_credits : ℚ) : List String :=
  [tierMessage gpa] ++ (if total_credits < 30 then [pacingMessage] else [])

/-- The immutable output bundle `AnalysisResult` (spec 3). -/
structure AnalysisResult where
  gpa : ℚ
  total_credits : ℚ
  academic_standing : String
  recommendations : List String
deriving DecidableEq

/-- Modelled from the spec: `AutoAdvisor.analyze_transcript` (spec 4.5
and section 2 control flow), missing from src/.  Aggregates the
transcript, derives the GPA, classifies the standing and generates the
recommendations; a pure total function. -/
def analyze_transcript (t : Transcript) : AnalysisResult :=
  let agg := aggregate t
  let gpa := computeGpa agg.1 agg.2
  { gpa := gpa
    total_credits := agg.1
    academic_standing := academic_standing gpa
    recommendations := recommendations gpa agg.1 }

/-- The analysis entry point as the observed code has it: Pydantic
validation of the raw transcript (defaults filling missing keys, no
credit check) followed by the engine.  The `Except` layer records the
possibility of a `ValidationError`; the observed code never produces
one. -/
def analyzeStudentData (j : TranscriptJson) : Except String AnalysisResult :=
  Except.ok (analyze_transcript (parseTranscript j))

/-- One endpoint call as explicit state passing: the handler builds
`student_dict = request.student_data.dict()` (a copy) and hands it to
the engine; the `StudentData` value itself flows through unchanged
(src/mainendpoints.py lines 244-247). -/
def analyze_call (s : StudentData) : AnalysisResult × StudentData :=
  (analyze_transcript s.transcript, s)

/-- Python `str.isdigit` on the embedded ASCII strings: at least one
character and every character a decimal digit. -/
def strIsDigit (s : String) : Bool :=
  decide (0 < s.length) && s.toList.all Char.isDigit

/-- `verify_credentials` from src/mainendpoints.py (lines 98-125):
reject an empty username or password, a password shorter than 8
characters, and a supplied pin that is not a 4-digit string; accept
everything else. -/
def verify_credentials (username password : String) (pin : Option String) : Bool :=
  if username = "" ∨ password = "" then false
  else if password.length < 8 then false
  else
    match pin with
    | some p => if strIsDigit p = false ∨ p.length ≠ 4 then false else true
    | none => true

/-- Authentication info returned by `authenticate_user`
(src/mainendpoints.py lines 128-144); the wall-clock timestamp is
omitted from the embedding. -/
structure AuthInfo where
  username : String
  authenticated : Bool
  pin_verified : Bool
deriving DecidableEq

/-- `authenticate_user` from src/mainendpoints.py (lines 128-144):
raises HTTP 401 when `verify_credentials` rejects, else returns the
auth info.  The raised `HTTPException` is embedded as `Except.error`
carrying the status code. -/
def authenticate_user (username password : String) (pin : Option String) :
    Except Nat AuthInfo :=
  if verify_credentials username password pin then
    Except.ok { username := username, authenticated := true,
                pin_verified := pin.isSome }
  else
    Except.error 401

/-- Request body of /api/analyze (src/mainendpoints.py lines 73-80);
`additional_data` and `prompt` have no computational effect on the
response fields below and are omitted. -/
structure AnalyzeRequest where
  username : String
  password : String
  pin : Option String := none
  student_data : StudentData
deriving DecidableEq

/-- Response body of /api/analyze (src/mainendpoints.py lines 83-91);
the wall-clock timestamp field is omitted from the embedding. -/
structure AnalyzeResponse where
  success : Bool
  message : String
  username : String
  gpa : ℚ
  total_credits : ℚ
  academic_standing : String
  recommendations : List String
deriving DecidableEq

/-- The /api/analyze handler `analyze_with_auth` (src/mainendpoints.py
lines 185-271): step 1 authenticates (an HTTP 401 escapes as
`Except.error`), step 3 runs the engine on the student data, step 5
builds the response.  The boolean of the pair records whether
`AutoAdvisor.analyze_transcript` was invoked during the call. -/
def analyze_with_auth (req : AnalyzeRequest) :
    Except Nat AnalyzeResponse × Bool :=
  match authenticate_user req.username req.password req.pin with
  | Except.error c => (Except.error c, false)
  | Except.ok _ =>
    let analysis := analyze_transcript req.student_data.transcript
    (Except.ok
      { success := true
        message := "Analysis completed successfully"
        username := req.username
        gpa := analysis.gpa
        total_credits := analysis.total_credits
        academic_standing := analysis.academic_standing
        recommendations := analysis.recommendations }, true)

/-! Concrete transcripts used by witnesses and counterexamples. -/

/-- The entirely empty transcript: all 8 buckets empty. -/
def emptyTranscript : Transcript := {}

/-- Scenario transcript: one course, grade A, 3 credits, in
freshman_1. -/
def oneCourseTranscript : Transcript :=
  { freshman_1 := [{ name := "Intro to CS", grade := "A", credits := 3,
                     semester := "FA22" }] }

/-- Boundary transcript with total credits 29.99. -/
def almostThirtyTranscript : Transcript :=
  { freshman_1 := [{ name := "Bulk", grade := "A", credits := 29.99,
                     semester := "FA22" }] }

/-- Boundary transcript with total credits exactly 30. -/
def thirtyTranscript : Transcript :=
  { freshman_1 := [{ name := "Bulk", grade := "A", credits := 30,
                     semester := "FA22" }] }

/-- Transcript with a course of negative credits, accepted by the
Pydantic models (no constraint on `credits`). -/
def negCreditsJson : TranscriptJson :=
  { freshman_1 := some [{ name := "Bad", grade := "A", credits := -3,
                          semester := "FA22" }] }

/-- The 8 fixed semester keys of the Transcript model, in canonical
order. -/
inductive SemKey
  | freshman_1
  | freshman_2
  | sophomore_1
  | sophomore_2
  | junior_1
  | junior_2
  | senior_1
  | senior_2
deriving DecidableEq

/-- The bucket of a transcript at a semester key. -/
def getSem (t : Transcript) : SemKey → List Course
  | SemKey.freshman_1 => t.freshman_1
  | SemKey.freshman_2 => t.freshman_2
  | SemKey.sophomore_1 => t.sophomore_1
  | SemKey.sophomore_2 => t.sophomore_2
  | SemKey.junior_1 => t.junior_1
  | SemKey.junior_2 => t.junior_2
  | SemKey.senior_1 => t.senior_1
  | SemKey.senior_2 => t.senior_2

/-- Replace the bucket of a transcript at a semester key. -/
def setSem (t : Transcript) (k : SemKey) (l : List Course) : Transcript :=
  match k with
  | SemKey.freshman_1 => { t with freshman_1 := l }
  | SemKey.freshman_2 => { t with freshman_2 := l }
  | SemKey.sophomore_1 => { t with sophomore_1 := l }
  | SemKey.sophomore_2 => { t with sophomore_2 := l }
  | SemKey.junior_1 => { t with junior_1 := l }
  | SemKey.junior_2 => { t with junior_2 := l }
  | SemKey.senior_1 => { t with senior_1 := l }
  | SemKey.senior_2 => { t with senior_2 := l }

/-- Example course: Calculus, grade A, 4 credits. -/
def courseA : Course :=
  { name := "Calculus", grade := "A", credits := 4, semester := "FA22" }

/-- Example course: Physics, grade B, 3 credits. -/
def courseB : Course :=
  { name := "Physics", grade := "B", credits := 3, semester := "FA22" }

/-- Transcript with two courses in one bucket, used to witness
order-invariance. -/
def twoCourseTranscript : Transcript :=
  { freshman_1 := [courseA, courseB] }

/-- Example student record. -/
def exampleStudent : StudentData :=
  { name := "John Doe", student_id := "V123456789", advisor := "Dr. Smith",
    transcript := oneCourseTranscript }

/-- Request whose credentials fail verification (empty username). -/
def badRequest : AnalyzeRequest :=
  { username := "", password := "SecurePass123!",
    student_data := exampleStudent }

/-! Helper lemmas about the aggregation. -/

/-- Credit sum of a course list. -/
def sumCredits (l : List Course) : ℚ :=
  (l.map Course.credits).sum

/-- Grade-point sum of a course list. -/
def sumPoints (l : List Course) : ℚ :=
  (l.map fun c => c.credits * gradeValue c.grade).sum

theorem foldl_courseStep (l : List Course) (a b : ℚ) :
    l.foldl courseStep (a, b) = (a + sumCredits l, b + sumPoints l) := by
  induction l generalizing a b with
  | nil => simp [sumCredits, sumPoints]
  | cons c l ih =>
    simp only [List.foldl_cons, courseStep, ih, sumCredits, sumPoints,
      List.map_cons, List.sum_cons, Prod.mk.injEq]
    exact ⟨by ring, by ring⟩

theorem aggregate_eq (t : Transcript) :
    aggregate t = (sumCredits (allCourses t), sumPoints (allCourses t)) := by
  rw [aggregate, foldl_courseStep, zero_add, zero_add]

theorem sumCredits_append (l₁ l₂ : List Course) :
    sumCredits (l₁ ++ l₂) = sumCredits l₁ + sumCredits l₂ := by
  simp [sumCredits]

theorem sumPoints_append (l₁ l₂ : List Course) :
    sumPoints (l₁ ++ l₂) = sumPoints l₁ + sumPoints l₂ := by
  simp [sumPoints]

theorem sumCredits_perm {l₁ l₂ : List Course} (h : l₁.Perm l₂) :
    sumCredits l₁ = sumCredits l₂ :=
  (h.map Course.credits).sum_eq

theorem sumPoints_perm {l₁ l₂ : List Course} (h : l₁.Perm l₂) :
    sumPoints l₁ = sumPoints l₂ := by
  unfold sumPoints
  exact List.Perm.sum_eq (List.Perm.map _ h)

theorem aggregate_perm {t t' : Transcript}
    (h : (allCourses t).Perm (allCourses t')) :
    aggregate t = aggregate t' := by
  rw [aggregate_eq, aggregate_eq, sumCredits_perm h, sumPoints_perm h]

/-! Field lemmas of the analysis result. -/

theorem analyze_gpa (t : Transcript) :
    (analyze_transcript t).gpa = computeGpa (aggregate t).1 (aggregate t).2 :=
  rfl

theorem analyze_total_credits (t : Transcript) :
    (analyze_transcript t).total_credits = (aggregate t).1 :=
  rfl

theorem analyze_standing (t : Transcript) :
    (analyze_transcript t).academic_standing =
      academic_standing (analyze_transcript t).gpa :=
  rfl

theorem analyze_recommendations (t : Transcript) :
    (analyze_transcript t).recommendations =
      recommendations (analyze_transcript t).gpa (aggregate t).1 :=
  rfl

/-! Helper lemmas about rounding, grade values and recommendations. -/

theorem gradeValue_nonneg (g : String) : 0 ≤ gradeValue g := by
  unfold gradeValue
  split_ifs <;> norm_num

theorem gradeValue_le_four (g : String) : gradeValue g ≤ 4 := by
  unfold gradeValue
  split_ifs <;> norm_num

theorem round2_nonneg {q : ℚ} (h : 0 ≤ q) : 0 ≤ round2 q := by
  unfold round2
  apply div_nonneg _ (by norm_num)
  have h' : (0 : ℤ) ≤ ⌊q * 100 + 1 / 2⌋ := Int.le_floor.mpr (by push_cast; nlinarith)
  exact_mod_cast h'

theorem round2_le_four {q : ℚ} (h : q ≤ 4) : round2 q ≤ 4 := by
  unfold round2
  rw [div_le_iff₀ (by norm_num)]
  have h' : ⌊q * 100 + 1 / 2⌋ < 401 := Int.floor_lt.mpr (by push_cast; nlinarith)
  have h'' : ⌊q * 100 + 1 / 2⌋ ≤ 400 := by omega
  calc (⌊q * 100 + 1 / 2⌋ : ℚ) ≤ 400 := by exact_mod_cast h''
    _ = 4 * 100 := by norm_num

theorem sumCredits_nonneg {l : List Course}
    (h : ∀ c ∈ l, 0 ≤ c.credits) : 0 ≤ sumCredits l := by
  apply List.sum_nonneg
  intro x hx
  obtain ⟨c, hc, rfl⟩ := List.mem_map.mp hx
  exact h c hc

theorem sumPoints_nonneg {l : List Course}
    (h : ∀ c ∈ l, 0 ≤ c.credits) : 0 ≤ sumPoints l := by
  apply List.sum_nonneg
  intro x hx
  obtain ⟨c, hc, rfl⟩ := List.mem_map.mp hx
  exact mul_nonneg (h c hc) (gradeValue_nonneg c.grade)

theorem sumPoints_le_four_mul {l : List Course}
    (h : ∀ c ∈ l, 0 ≤ c.credits) : sumPoints l ≤ 4 * sumCredits l := by
  induction l with
  | nil => simp [sumCredits, sumPoints]
  | cons c l ih =>
    have hc : 0 ≤ c.credits := h c (List.mem_cons_self c l)
    have hl : ∀ x ∈ l, 0 ≤ x.credits := fun x hx => h x (List.mem_cons_of_mem c hx)
    have hstep : c.credits * gradeValue c.grade ≤ 4 * c.credits := by
      have := mul_le_mul_of_nonneg_left (gradeValue_le_four c.grade) hc
      linarith
    simp only [sumCredits, sumPoints, List.map_cons, List.sum_cons]
    have := ih hl
    simp only [sumCredits, sumPoints] at this
    nlinarith

theorem tierMessage_ne_pacing (g : ℚ) : pacingMessage ≠ tierMessage g := by
  unfold tierMessage
  split_ifs <;> decide

theorem recommendations_head (g tc : ℚ) :
    (recommendations g tc).head? = some (tierMessage g) :=
  rfl

theorem recommendations_count_tier (g tc : ℚ) :
    (recommendations g tc).count (tierMessage g) = 1 := by
  unfold recommendations
  rcases lt_or_le tc 30 with h | h
  · simp [h, List.count_cons, tierMessage_ne_pacing g]
  · simp [not_lt.mpr h]

theorem recommendations_pacing_mem (g tc : ℚ) :
    pacingMessage ∈ recommendations g tc ↔ tc < 30 := by
  unfold recommendations
  rcases lt_or_le tc 30 with h | h
  · simp [h]
  · rw [if_neg (not_lt.mpr h)]
    simp only [List.append_nil, List.mem_singleton]
    exact ⟨fun hc => absurd hc (tierMessage_ne_pacing g),
           fun hc => absurd hc (not_lt.mpr h)⟩

/-! Evaluation lemmas for the grade table and the concrete example
transcripts. -/

theorem gradeValue_A : gradeValue "A" = 4 := by decide

theorem gradeValue_B : gradeValue "B" = 3 := by decide

theorem gradeValue_C : gradeValue "C" = 2 := by decide

theorem gradeValue_D : gradeValue "D" = 1 := by decide

theorem gradeValue_F : gradeValue "F" = 0 := by decide

theorem aggregate_empty : aggregate emptyTranscript = (0, 0) := rfl

theorem aggregate_oneCourse : aggregate oneCourseTranscript = (3, 12) := by
  rw [aggregate_eq]
  norm_num [allCourses, oneCourseTranscript, sumCredits, sumPoints, gradeValue]

theorem aggregate_almostThirty :
    aggregate almostThirtyTranscript = (29.99, 29.99 * 4) := by
  rw [aggregate_eq]
  norm_num [allCourses, almostThirtyTranscript, sumCredits, sumPoints, gradeValue]

theorem aggregate_thirty : aggregate thirtyTranscript = (30, 120) := by
  rw [aggregate_eq]
  norm_num [allCourses, thirtyTranscript, sumCredits, sumPoints, gradeValue]

theorem aggregate_twoCourse : aggregate twoCourseTranscript = (7, 25) := by
  rw [aggregate_eq]
  norm_num [allCourses, twoCourseTranscript, courseA, courseB, sumCredits,
    sumPoints, gradeValue_A, gradeValue_B]

/-! Claim theorems. -/

/-- Claim C1: for every transcript the analysis GPA equals
`grade_points / total_credits` rounded to 2 decimal places whenever
`total_credits > 0`, and equals exactly 0 whenever `total_credits = 0`;
the computation is total, so no error can arise in the zero-credit
case. -/
theorem claim_C1_gpa_division_guarded (t : Transcript) :
    (0 < (aggregate t).1 →
      (analyze_transcript t).gpa = round2 ((aggregate t).2 / (aggregate t).1)) ∧
    ((aggregate t).1 = 0 → (analyze_transcript t).gpa = 0) := by
  constructor
  · intro h
    rw [analyze_gpa, computeGpa, if_pos h]
  · intro h
    rw [analyze_gpa, computeGpa, h]
    norm_num

/-- Witness for C1: a one-course transcript exercises the division
branch (GPA 4.00) and the empty transcript the zero-credit branch. -/
theorem claim_C1_witness :
    (0 < (aggregate oneCourseTranscript).1 ∧
      (analyze_transcript oneCourseTranscript).gpa =
        round2 ((aggregate oneCourseTranscript).2 /
          (aggregate oneCourseTranscript).1)) ∧
    ((aggregate emptyTranscript).1 = 0 ∧
      (analyze_transcript emptyTranscript).gpa = 0) :=
  ⟨⟨by rw [aggregate_oneCourse]; norm_num,
    (claim_C1_gpa_division_guarded oneCourseTranscript).1
      (by rw [aggregate_oneCourse]; norm_num)⟩,
   ⟨by rw [aggregate_empty],
    (claim_C1_gpa_division_guarded emptyTranscript).2
      (by rw [aggregate_empty])⟩⟩

/-- Claim C2: the aggregation walks the 8 fixed semester keys in
canonical order; for each course it adds its credits to `total_credits`
and credits times gradeValue(grade) to `grade_points`; gradeValue maps
A to 4, B to 3, C to 2, D to 1, F to 0, and every other grade silently
to 0; the entirely empty transcript yields `total_credits = 0`. -/
theorem claim_C2_aggregation (t : Transcript) :
    aggregate t = (sumCredits (allCourses t), sumPoints (allCourses t)) ∧
    allCourses t =
      t.freshman_1 ++ t.freshman_2 ++ t.sophomore_1 ++ t.sophomore_2 ++
        t.junior_1 ++ t.junior_2 ++ t.senior_1 ++ t.senior_2 ∧
    gradeValue "A" = 4 ∧ gradeValue "B" = 3 ∧ gradeValue "C" = 2 ∧
    gradeValue "D" = 1 ∧ gradeValue "F" = 0 ∧
    (∀ g : String,
      g ∉ (["A", "B", "C", "D", "F"] : List String) → gradeValue g = 0) ∧
    (aggregate emptyTranscript).1 = 0 := by
  refine ⟨aggregate_eq t, rfl, gradeValue_A, gradeValue_B, gradeValue_C,
    gradeValue_D, gradeValue_F, ?_, by rw [aggregate_empty]⟩
  intro g hg
  simp only [List.mem_cons, List.not_mem_nil, or_false] at hg
  push_neg at hg
  obtain ⟨hA, hB, hC, hD, hF⟩ := hg
  simp [gradeValue, hA, hB, hC, hD, hF]

/-- Witness for C2: an unrecognized grade scores 0 points, and the
two-course example aggregates to 7 credits and 25 grade points. -/
theorem claim_C2_witness :
    gradeValue "W" = 0 ∧ aggregate twoCourseTranscript = (7, 25) :=
  ⟨(claim_C2_aggregation emptyTranscript).2.2.2.2.2.2.2.1 "W" (by decide),
   aggregate_twoCourse⟩

/-- Claim C3: the standing classifier evaluates three bands in
descending order with first match winning: `gpa ≥ 3.5` is the top tier,
`3 ≤ gpa < 3.5` the middle tier, `gpa < 3` the bottom tier; exactly 3.5
classifies as top, exactly 3 as middle; every rational GPA lands in
exactly one of the three tiers and no input is an error. -/
theorem claim_C3_standing_bands (gpa : ℚ) :
    (3.5 ≤ gpa → academic_standing gpa = "excellent") ∧
    (3 ≤ gpa ∧ gpa < 3.5 → academic_standing gpa = "good") ∧
    (gpa < 3 → academic_standing gpa = "needs improvement") ∧
    academic_standing (3.5 : ℚ) = "excellent" ∧
    academic_standing (3 : ℚ) = "good" ∧
    (academic_standing gpa = "excellent" ∨ academic_standing gpa = "good" ∨
      academic_standing gpa = "needs improvement") := by
  refine ⟨?_, ?_, ?_, ?_, ?_, ?_⟩
  · intro h
    rw [academic_standing, if_pos h]
  · rintro ⟨h1, h2⟩
    rw [academic_standing, if_neg (not_le.mpr h2), if_pos h1]
  · intro h
    have h' : ¬ (3.5 : ℚ) ≤ gpa := not_le.mpr (h.trans_le (by norm_num))
    rw [academic_standing, if_neg h', if_neg (not_le.mpr h)]
  · rw [academic_standing, if_pos (by norm_num)]
  · rw [academic_standing, if_neg (by norm_num), if_pos (by norm_num)]
  · unfold academic_standing
    split_ifs <;> simp

/-- Witness for C3: 3.7 is top tier, 3.2 middle tier, 2.1 bottom
tier. -/
theorem claim_C3_witness :
    academic_standing (3.7 : ℚ) = "excellent" ∧
    academic_standing (3.2 : ℚ) = "good" ∧
    academic_standing (2.1 : ℚ) = "needs improvement" :=
  ⟨(claim_C3_standing_bands 3.7).1 (by norm_num),
   (claim_C3_standing_bands 3.2).2.1 ⟨by norm_num, by norm_num⟩,
   (claim_C3_standing_bands 2.1).2.2.1 (by norm_num)⟩

/-- Claim C4: the recommendations list is never empty, its first element
is the GPA-tier message which occurs exactly once, and the pacing
message is present if and only if `total_credits < 30`; a transcript
with total credits 29.99 includes the pacing message and one with total
credits 30 does not. -/
theorem claim_C4_recommendations (t : Transcript) :
    (analyze_transcript t).recommendations =
      tierMessage (analyze_transcript t).gpa ::
        (if (analyze_transcript t).total_credits < 30
          then [pacingMessage] else []) ∧
    (analyze_transcript t).recommendations ≠ [] ∧
    (analyze_transcript t).recommendations.head? =
      some (tierMessage (analyze_transcript t).gpa) ∧
    (analyze_transcript t).recommendations.count
      (tierMessage (analyze_transcript t).gpa) = 1 ∧
    (pacingMessage ∈ (analyze_transcript t).recommendations ↔
      (analyze_transcript t).total_credits < 30) ∧
    pacingMessage ∈ (analyze_transcript almostThirtyTranscript).recommendations ∧
    pacingMessage ∉ (analyze_transcript thirtyTranscript).recommendations := by
  refine ⟨rfl, by simp [analyze_recommendations, recommendations],
    recommendations_head _ _, recommendations_count_tier _ _,
    recommendations_pacing_mem _ _, ?_, ?_⟩
  · rw [analyze_recommendations, recommendations_pacing_mem,
      aggregate_almostThirty]
    norm_num
  · rw [analyze_recommendations, recommendations_pacing_mem, aggregate_thirty]
    norm_num

/-- Witness for C4: the one-course transcript (3 credits) includes the
pacing message, obtained from the membership equivalence. -/
theorem claim_C4_witness :
    pacingMessage ∈ (analyze_transcript oneCourseTranscript).recommendations :=
  (claim_C4_recommendations oneCourseTranscript).2.2.2.2.1.mpr
    (by rw [analyze_total_credits, aggregate_oneCourse]; norm_num)

/-- Counterexample to claim C5: the claim requires the entry point to
fail with a ValidationError when semester keys are missing or a course
has negative credits, but a raw transcript missing all 8 semester keys
is accepted (Pydantic fills the declared `[]` defaults) and a course
with credits -3 is accepted as well, so the analysis succeeds on both
inputs. -/
theorem claim_C5_counterexample :
    ({} : TranscriptJson).freshman_1 = none ∧
    parseTranscript {} = emptyTranscript ∧
    analyzeStudentData {} = Except.ok (analyze_transcript emptyTranscript) ∧
    (negCreditsJson.freshman_1.getD []).map Course.credits = [-3] ∧
    analyzeStudentData negCreditsJson =
      Except.ok (analyze_transcript (parseTranscript negCreditsJson)) :=
  ⟨rfl, rfl, rfl, rfl, rfl⟩

/-- Claim C5 as amended: the analysis entry point never fails with a
ValidationError: every semester key of the Pydantic Transcript model
carries the default `[]`, so a missing key is replaced by the empty
list, no constraint rejects negative credits, and every well-typed
input succeeds and returns an AnalysisResult. -/
theorem claim_C5_entry_point_total (j : TranscriptJson) :
    (∃ r : AnalysisResult, analyzeStudentData j = Except.ok r) ∧
    parseTranscript { j with freshman_1 := none } =
      parseTranscript { j with freshman_1 := some [] } :=
  ⟨⟨analyze_transcript (parseTranscript j), rfl⟩, rfl⟩

/-- Claim C6: for every transcript whose courses all carry a grade in
{A,B,C,D,F} and non-negative credits, the computed GPA lies in the
closed interval [0, 4]. -/
theorem claim_C6_gpa_range (t : Transcript)
    (h : ∀ c ∈ allCourses t,
      c.grade ∈ (["A", "B", "C", "D", "F"] : List String) ∧ 0 ≤ c.credits) :
    0 ≤ (analyze_transcript t).gpa ∧ (analyze_transcript t).gpa ≤ 4 := by
  have hc : ∀ c ∈ allCourses t, 0 ≤ c.credits := fun c hm => (h c hm).2
  rw [analyze_gpa, aggregate_eq]
  simp only [computeGpa]
  split_ifs with h0
  · have hgp : 0 ≤ sumPoints (allCourses t) := sumPoints_nonneg hc
    have hle : sumPoints (allCourses t) ≤ 4 * sumCredits (allCourses t) :=
      sumPoints_le_four_mul hc
    constructor
    · exact round2_nonneg (div_nonneg hgp h0.le)
    · exact round2_le_four ((div_le_iff₀ h0).mpr (by linarith))
  · norm_num

/-- Witness for C6: the two-course transcript (grades A and B,
non-negative credits) has its GPA inside [0, 4]. -/
theorem claim_C6_witness :
    0 ≤ (analyze_transcript twoCourseTranscript).gpa ∧
    (analyze_transcript twoCourseTranscript).gpa ≤ 4 :=
  claim_C6_gpa_range twoCourseTranscript (by decide)

/-- Claim C7: permuting the course order inside a single semester bucket
changes neither the GPA nor the total credits, and the recommendations
of the permuted transcript still begin with the GPA-tier message. -/
theorem claim_C7_bucket_permutation (t : Transcript) (k : SemKey)
    (l' : List Course) (h : (getSem t k).Perm l') :
    (analyze_transcript (setSem t k l')).gpa = (analyze_transcript t).gpa ∧
    (analyze_transcript (setSem t k l')).total_credits =
      (analyze_transcript t).total_credits ∧
    (analyze_transcript (setSem t k l')).recommendations.head? =
      some (tierMessage (analyze_transcript (setSem t k l')).gpa) := by
  have hperm : (allCourses (setSem t k l')).Perm (allCourses t) := by
    cases k with
    | freshman_1 =>
      simp only [getSem] at h
      simp only [setSem, allCourses]
      exact ((((((h.symm.append_right _).append_right _).append_right
        _).append_right _).append_right _).append_right _).append_right _
    | freshman_2 =>
      simp only [getSem] at h
      simp only [setSem, allCourses]
      exact ((((((((List.Perm.refl _).append h.symm).append_right
        _).append_right _).append_right _).append_right _).append_right
        _).append_right _)
    | sophomore_1 =>
      simp only [getSem] at h
      simp only [setSem, allCourses]
      exact (((((((List.Perm.refl _).append h.symm).append_right
        _).append_right _).append_right _).append_right _).append_right _)
    | sophomore_2 =>
      simp only [getSem] at h
      simp only [setSem, allCourses]
      exact ((((((List.Perm.refl _).append h.symm).append_right
        _).append_right _).append_right _).append_right _)
    | junior_1 =>
      simp only [getSem] at h
      simp only [setSem, allCourses]
      exact (((((List.Perm.refl _).append h.symm).append_right
        _).append_right _).append_right _)
    | junior_2 =>
      simp only [getSem] at h
      simp only [setSem, allCourses]
      exact ((((List.Perm.refl _).append h.symm).append_right
        _).append_right _)
    | senior_1 =>
      simp only [getSem] at h
      simp only [setSem, allCourses]
      exact (((List.Perm.refl _).append h.symm).append_right _)
    | senior_2 =>
      simp only [getSem] at h
      simp only [setSem, allCourses]
      exact (List.Perm.refl _).append h.symm
  have hagg : aggregate (setSem t k l') = aggregate t := aggregate_perm hperm
  refine ⟨?_, ?_, recommendations_head _ _⟩
  · rw [analyze_gpa, analyze_gpa, hagg]
  · rw [analyze_total_credits, analyze_total_credits, hagg]

/-- Witness for C7: swapping the two freshman courses leaves GPA and
total credits unchanged, with the tier message still first. -/
theorem claim_C7_witness :
    (analyze_transcript
        (setSem twoCourseTranscript SemKey.freshman_1 [courseB, courseA])).gpa =
      (analyze_transcript twoCourseTranscript).gpa ∧
    (analyze_transcript
        (setSem twoCourseTranscript SemKey.freshman_1
          [courseB, courseA])).total_credits =
      (analyze_transcript twoCourseTranscript).total_credits ∧
    (analyze_transcript
        (setSem twoCourseTranscript SemKey.freshman_1
          [courseB, courseA])).recommendations.head? =
      some (tierMessage (analyze_transcript
        (setSem twoCourseTranscript SemKey.freshman_1 [courseB, courseA])).gpa) :=
  claim_C7_bucket_permutation twoCourseTranscript SemKey.freshman_1
    [courseB, courseA] (by decide)

/-- Claim C8: the analysis is pure and stateless: a second call on the
state returned by a first call yields an identical AnalysisResult, and
the call returns its input StudentData unchanged (the handler passes a
copy `student_data.dict()` to the engine and never writes back). -/
theorem claim_C8_pure_idempotent (s : StudentData) :
    (analyze_call ((analyze_call s).2)).1 = (analyze_call s).1 ∧
    (analyze_call s).2 = s :=
  ⟨rfl, rfl⟩

/-- Claim C9: `verify_credentials` returns true if and only if the
username is non-empty, the password has at least 8 characters, and the
pin is either absent or a string of exactly 4 decimal digits; no other
check on the credential values is performed. -/
theorem claim_C9_verify_credentials (u p : String) (pin : Option String) :
    verify_credentials u p pin = true ↔
      (u ≠ "" ∧ 8 ≤ p.length ∧
        (pin = none ∨
          ∃ s, pin = some s ∧ s.length = 4 ∧ s.toList.all Char.isDigit = true)) := by
  unfold verify_credentials
  cases pin with
  | none =>
    split_ifs with h1 h2
    · simp only [Bool.false_eq_true, false_iff]
      rintro ⟨hu, hp, -⟩
      rcases h1 with h | h
      · exact hu h
      · subst h
        exact absurd hp (by decide)
    · simp only [Bool.false_eq_true, false_iff]
      rintro ⟨-, hp, -⟩
      omega
    · push_neg at h1
      exact iff_of_true rfl ⟨h1.1, by omega, Or.inl rfl⟩
  | some s =>
    split_ifs with h1 h2
    · simp only [Bool.false_eq_true, false_iff]
      rintro ⟨hu, hp, -⟩
      rcases h1 with h | h
      · exact hu h
      · subst h
        exact absurd hp (by decide)
    · simp only [Bool.false_eq_true, false_iff]
      rintro ⟨-, hp, -⟩
      omega
    · dsimp only
      split_ifs with h3
      · simp only [Bool.false_eq_true, false_iff]
        rintro ⟨-, -, hor⟩
        rcases hor with h | ⟨s', hs', hlen, hdig⟩
        · exact h.elim
        · obtain rfl : s = s' := Option.some.inj hs'
          rcases h3 with h | h
          · rw [strIsDigit, hdig] at h
            simp [hlen] at h
          · exact h hlen
      · push_neg at h1 h3
        have hd : strIsDigit s = true := by
          cases hb : strIsDigit s
          · exact absurd hb h3.1
          · rfl
        rw [strIsDigit, Bool.and_eq_true] at hd
        exact iff_of_true rfl ⟨h1.1, by omega, Or.inr ⟨s, rfl, h3.2, hd.2⟩⟩

/-- Witness for C9: a non-empty username with an 8+ character password
and no pin is accepted. -/
theorem claim_C9_witness :
    verify_credentials "john.doe@vsu.edu" "SecurePass123!" none = true :=
  (claim_C9_verify_credentials "john.doe@vsu.edu" "SecurePass123!" none).mpr
    ⟨by decide, by decide, Or.inl rfl⟩

/-- Claim C10: in the /api/analyze handler, authentication strictly
precedes analysis: whenever `verify_credentials` rejects the supplied
credentials the handler raises HTTP 401, `analyze_transcript` is never
invoked, and no AnalyzeResponse is produced. -/
theorem claim_C10_auth_precedes_analysis (req : AnalyzeRequest)
    (h : verify_credentials req.username req.password req.pin = false) :
    (analyze_with_auth req).1 = Except.error 401 ∧
    (analyze_with_auth req).2 = false := by
  unfold analyze_with_auth authenticate_user
  rw [h]
  simp

/-- Witness for C10: a request with an empty username is rejected with
HTTP 401 and the engine is not invoked. -/
theorem claim_C10_witness :
    (analyze_with_auth badRequest).1 = Except.error 401 ∧
    (analyze_with_auth badRequest).2 = false :=
  claim_C10_auth_precedes_analysis badRequest (by decide)

end AutoAdvisor
